import Mathlib

/-!
A formal model of the core data logic of a Berlin travel-guide web app
(`streamlit_app.py`): the cuisine classifier of the place fetch, the place
fetch with its cuisine filter, the crime-statistics loader, the
external-data fallbacks and the session-state operations.

External HTTP calls are modelled by passing the (optional) decoded response
as an argument: `none` stands for any failure of the call or of the decoding
(the `except` path of the original code).  Python floats occurring only as
opaque constants are modelled as rationals.
-/

/-- `charsHasPre pat l` : `pat` is an initial segment of `l`. -/
def charsHasPre : List Char → List Char → Bool
  | [], _ => true
  | _ :: _, [] => false
  | p :: ps, c :: cs => p == c && charsHasPre ps cs

/-- `charsHasSub pat l` : `pat` occurs contiguously inside `l`. -/
def charsHasSub (pat : List Char) : List Char → Bool
  | [] => charsHasPre pat []
  | c :: cs => charsHasPre pat (c :: cs) || charsHasSub pat cs

/-- Python's substring test `pat in s`. -/
def hasSubstr (s pat : String) : Bool := charsHasSub pat.data s.data

/-- Python's `str.lower()` (character-wise, as used on the cuisine tags). -/
def strToLower (s : String) : String := ⟨s.data.map Char.toLower⟩

/-- Python's `str.strip()` : drop surrounding whitespace. -/
def strTrim (s : String) : String :=
  ⟨((s.data.dropWhile Char.isWhitespace).reverse.dropWhile Char.isWhitespace).reverse⟩

/-- Python's `s.replace('\n', '')` : drop every line-break character. -/
def stripNewlines (s : String) : String := ⟨s.data.filter (fun c => !(c == '\n'))⟩

/-- Python's `s.endswith(pat)`. -/
def strEndsWith (s pat : String) : Bool := charsHasPre pat.data.reverse s.data.reverse

/-- Western-cuisine keywords of the classifier (`streamlit_app.py` line 86). -/
def westernKeywords : List String :=
  ["burger", "pizza", "italian", "french", "german", "american", "steak"]

/-- Asian-cuisine keywords of the classifier (`streamlit_app.py` line 87). -/
def asianKeywords : List String :=
  ["chinese", "vietnamese", "thai", "japanese", "sushi", "asian", "indian"]

/-- Cafe keywords of the classifier (`streamlit_app.py` line 88). -/
def cafeKeywords : List String := ["coffee", "cafe", "cake"]

/-- The cuisine classifier inlined in `get_osm_places`
(`streamlit_app.py` lines 85-89): ordered, first-match-wins substring tests
over the (already lower-cased) cuisine tag.  The five possible results are
한식 (Korean), 양식 (Western), 아시안 (Asian), 카페 (Cafe) and
일반/기타 (General/Other). -/
def classify (cuisine : String) : String :=
  if hasSubstr cuisine "korean" then "한식"
  else if westernKeywords.any (fun x => hasSubstr cuisine x) then "양식"
  else if asianKeywords.any (fun x => hasSubstr cuisine x) then "아시안"
  else if cafeKeywords.any (fun x => hasSubstr cuisine x) then "카페"
  else "일반/기타"

/-- C1: a raw cuisine tag that contains "korean" case-insensitively (i.e.
whose lower-casing, as performed by the fetch, contains "korean") is always
classified 한식 (Korean), whatever other keywords the tag also contains. -/
theorem classify_korean_first (raw : String)
    (h : hasSubstr (strToLower raw) "korean" = true) :
    classify (strToLower raw) = "한식" := by
  simp [classify, h]

/-- Witness for `classify_korean_first` at a tag that also contains the
keywords "pizza", "sushi" and "cafe". -/
theorem classify_korean_first_witness :
    hasSubstr (strToLower "Korean;pizza;sushi;cafe") "korean" = true ∧
      classify (strToLower "Korean;pizza;sushi;cafe") = "한식" :=
  ⟨by decide, classify_korean_first "Korean;pizza;sushi;cafe" (by decide)⟩

/-- The tag block of a raw element returned by the Overpass API; the fields
are the tags the fetch reads (`name`, `cuisine`), `none` meaning the key is
absent. -/
structure OsmTags where
  name : Option String
  cuisine : Option String
deriving DecidableEq

/-- A raw node element of the Overpass response: an optional tag block and
coordinates (opaque to the fetch, which only copies them). -/
structure OsmElement where
  tags : Option OsmTags
  lat : Int
  lon : Int
deriving DecidableEq

/-- The record appended to `results` by `get_osm_places`
(`streamlit_app.py` lines 94-101). -/
structure Place where
  name : String
  lat : Int
  lng : Int
  type : String
  cuisine_type : String
  raw_cuisine : String
deriving DecidableEq

/-- One loop iteration of `get_osm_places` (`streamlit_app.py` lines 78-101):
skip an element without a tag block or a name, lower-case its cuisine tag
(default `"general"`), classify it when the category is `restaurant`
(otherwise the initial placeholder 기타 is kept), apply the cuisine filter
(restaurant category only), and build the result record. -/
def processElement (category : String) (cuisine_filter : List String)
    (e : OsmElement) : Option Place :=
  match e.tags with
  | none => none
  | some tags =>
    match tags.name with
    | none => none
    | some name =>
      let cuisine := strToLower (tags.cuisine.getD "general")
      let place_type := if category == "restaurant" then classify cuisine else "기타"
      if category == "restaurant" && !cuisine_filter.isEmpty
          && !(cuisine_filter.contains "전체")
          && !(cuisine_filter.contains place_type) then
        none
      else
        some { name := name, lat := e.lat, lng := e.lon, type := category,
               cuisine_type := place_type, raw_cuisine := cuisine }

/-- `get_osm_places` (`streamlit_app.py` lines 52-104).  A category other
than the three known ones returns `[]` before any request is issued; the
Overpass call and its JSON decoding are modelled by the `resp` argument
(`none` = the request raised, the `except` path returning `[]`); an empty
`cuisine_filter` list also models Python's falsy default `None`. -/
def get_osm_places (category : String) (resp : Option (List OsmElement))
    (cuisine_filter : List String) : List Place :=
  if category == "restaurant" || category == "hotel" || category == "tourism" then
    match resp with
    | none => []
    | some els => els.filterMap (processElement category cuisine_filter)
  else []

/-- The exchange-rate fetch (`streamlit_app.py` lines 34-41): the decoded
`rates.KRW` value on success, the fixed `1450.0` on any failure. -/
def get_exchange_rate (resp : Option ℚ) : ℚ :=
  match resp with
  | some rate => rate
  | none => 1450

/-- The weather record read by the page: the `temperature` and
`weathercode` fields of the decoded `current_weather` object. -/
structure Weather where
  temperature : ℚ
  weathercode : ℤ
deriving DecidableEq

/-- The weather fetch (`streamlit_app.py` lines 43-50): the decoded
`current_weather` object on success, the fixed
`{temperature: 15.0, weathercode: 0}` on any failure. -/
def get_weather (resp : Option Weather) : Weather :=
  match resp with
  | some w => w
  | none => { temperature := 15, weathercode := 0 }

/-- Rewriting a `filterMap` along a pointwise-equal function. -/
theorem filterMap_ext {α β : Type} (f g : α → Option β) (l : List α)
    (h : ∀ a, f a = g a) : l.filterMap f = l.filterMap g := by
  induction l with
  | nil => rfl
  | cons a t ih => simp [List.filterMap_cons, h a, ih]

/-- A per-element guard inside a `filterMap` is the same as a `filter` of
its output. -/
theorem filterMap_bind_guard {α β : Type} (g : α → Option β) (q : β → Bool)
    (l : List α) :
    l.filterMap (fun a => (g a).bind (fun b => if q b then some b else none))
      = (l.filterMap g).filter q := by
  induction l with
  | nil => rfl
  | cons a t ih =>
    cases hg : g a with
    | none => simp [List.filterMap_cons, hg, ih]
    | some b =>
      cases hq : q b <;>
        simp [List.filterMap_cons, hg, hq, ih, List.filter_cons]

/-- In the restaurant category, the cuisine filter of `processElement` acts
as a guard on the otherwise unfiltered element processing. -/
theorem processElement_restaurant_guard (f : List String) (e : OsmElement) :
    processElement "restaurant" f e
      = (processElement "restaurant" [] e).bind
          (fun p => if f.isEmpty || f.contains "전체" || f.contains p.cuisine_type
                    then some p else none) := by
  rcases e with ⟨tags, lat, lon⟩
  cases tags with
  | none => rfl
  | some t =>
    cases hn : t.name with
    | none => simp [processElement, hn]
    | some name =>
      cases hfe : f.isEmpty <;> cases hc1 : f.contains "전체" <;>
        cases hc2 : f.contains (classify (strToLower (t.cuisine.getD "general"))) <;>
        simp only [processElement, hn] <;> simp_all

/-- Outside the restaurant category, `processElement` ignores the cuisine
filter entirely. -/
theorem processElement_nonrestaurant (category : String)
    (h : (category == "restaurant") = false) (f : List String) (e : OsmElement) :
    processElement category f e = processElement category [] e := by
  rcases e with ⟨tags, lat, lon⟩
  cases tags with
  | none => rfl
  | some t =>
    cases hn : t.name with
    | none => simp [processElement, hn]
    | some name => simp [processElement, hn, h]

/-- On a successful restaurant fetch, the result list with a cuisine filter
is the `filter` of the unfiltered result list by the filter condition of
`streamlit_app.py` lines 91-92. -/
theorem get_osm_places_restaurant_filter (es : List OsmElement) (f : List String) :
    get_osm_places "restaurant" (some es) f
      = (get_osm_places "restaurant" (some es) []).filter
          (fun p => f.isEmpty || f.contains "전체" || f.contains p.cuisine_type) := by
  have h1 : get_osm_places "restaurant" (some es) f
      = es.filterMap (processElement "restaurant" f) := by
    simp [get_osm_places]
  have h2 : get_osm_places "restaurant" (some es) []
      = es.filterMap (processElement "restaurant" []) := by
    simp [get_osm_places]
  rw [h1, h2, ← filterMap_bind_guard]
  exact filterMap_ext _ _ es (fun e => processElement_restaurant_guard f e)

/-- C2: the cuisine-filter contract of `get_osm_places`: an empty selected
set or one containing the sentinel 전체 ("All") excludes nothing; otherwise
exactly the places whose derived class is in the set are retained; and the
filter never acts on hotel or tourism fetches. -/
theorem cuisine_filter_contract :
    (∀ es f, (f = [] ∨ f.contains "전체" = true) →
        get_osm_places "restaurant" (some es) f
          = get_osm_places "restaurant" (some es) []) ∧
    (∀ es f, f ≠ [] → f.contains "전체" = false →
        get_osm_places "restaurant" (some es) f
          = (get_osm_places "restaurant" (some es) []).filter
              (fun p => f.contains p.cuisine_type)) ∧
    (∀ category, category = "hotel" ∨ category = "tourism" → ∀ es f,
        get_osm_places category (some es) f
          = get_osm_places category (some es) []) := by
  refine ⟨?_, ?_, ?_⟩
  · intro es f hf
    rw [get_osm_places_restaurant_filter]
    rcases hf with hf | hf
    · subst hf
      simp
    · have hf2 : "전체" ∈ f := by simpa using hf
      simp [hf2]
  · intro es f hne hall
    rw [get_osm_places_restaurant_filter]
    have hfe : f.isEmpty = false := by
      cases f with
      | nil => exact absurd rfl hne
      | cons a t => rfl
    have h2 : "전체" ∉ f := by simpa using hall
    simp [hfe, h2]
  · intro category hcat es f
    have h : (category == "restaurant") = false := by
      rcases hcat with h | h <;> subst h <;> decide
    have hv : (category == "restaurant" || category == "hotel"
        || category == "tourism") = true := by
      rcases hcat with hh | hh <;> subst hh <;> decide
    simp only [get_osm_places, hv, if_true]
    exact filterMap_ext _ _ es (fun e => processElement_nonrestaurant category h f e)

/-- Witness for `cuisine_filter_contract`: each conjunct applied at a
two-element response (one Korean restaurant, one pizzeria). -/
theorem cuisine_filter_contract_witness :
    (get_osm_places "restaurant"
        (some [⟨some ⟨some "K", some "korean"⟩, 1, 2⟩,
               ⟨some ⟨some "P", some "pizza"⟩, 3, 4⟩]) ["전체"]
      = get_osm_places "restaurant"
        (some [⟨some ⟨some "K", some "korean"⟩, 1, 2⟩,
               ⟨some ⟨some "P", some "pizza"⟩, 3, 4⟩]) []) ∧
    (get_osm_places "restaurant"
        (some [⟨some ⟨some "K", some "korean"⟩, 1, 2⟩,
               ⟨some ⟨some "P", some "pizza"⟩, 3, 4⟩]) ["한식"]
      = (get_osm_places "restaurant"
          (some [⟨some ⟨some "K", some "korean"⟩, 1, 2⟩,
                 ⟨some ⟨some "P", some "pizza"⟩, 3, 4⟩]) []).filter
          (fun p => (["한식"] : List String).contains p.cuisine_type)) ∧
    (get_osm_places "hotel"
        (some [⟨some ⟨some "K", some "korean"⟩, 1, 2⟩]) ["한식"]
      = get_osm_places "hotel"
        (some [⟨some ⟨some "K", some "korean"⟩, 1, 2⟩]) []) :=
  ⟨cuisine_filter_contract.1 _ ["전체"] (Or.inr (by decide)),
   cuisine_filter_contract.2.1 _ ["한식"] (by decide) (by decide),
   cuisine_filter_contract.2.2 "hotel" (Or.inl rfl) _ ["한식"]⟩

/-- C5: on any failure of the underlying call (`resp = none`), each fetcher
returns its fixed fallback: exchange rate `1450.0`, weather
`{temperature: 15.0, weathercode: 0}`, places the empty list.  The fetchers
are total functions, so no exception reaches the caller, and being constants
of the failure case the fallbacks are identical across repeated failures. -/
theorem fetcher_fallbacks :
    get_exchange_rate none = 1450 ∧
      get_weather none = { temperature := 15, weathercode := 0 } ∧
      ∀ category f, get_osm_places category none f = [] := by
  refine ⟨rfl, rfl, ?_⟩
  intro category f
  unfold get_osm_places
  split <;> rfl

/-- Outside the restaurant category a successfully built place record keeps
the initial placeholder 기타 as its `cuisine_type`. -/
theorem processElement_placeholder (category : String)
    (h : (category == "restaurant") = false) (f : List String)
    (e : OsmElement) (p : Place)
    (hpe : processElement category f e = some p) : p.cuisine_type = "기타" := by
  rcases e with ⟨tags, lat, lon⟩
  cases tags with
  | none => simp [processElement] at hpe
  | some t =>
    cases hn : t.name with
    | none => simp [processElement, hn] at hpe
    | some name =>
      simp [processElement, hn, h] at hpe
      subst hpe
      rfl

/-- C9: every place built by a hotel-category or tourism-category fetch
carries the placeholder 기타 as its cuisine field — a value that is none of
the five cuisine classes, i.e. no cuisine class is derived; derivation only
happens for restaurant fetches. -/
theorem nonrestaurant_no_cuisine_class (category : String)
    (hcat : category = "hotel" ∨ category = "tourism")
    (es : List OsmElement) (f : List String) (p : Place)
    (hp : p ∈ get_osm_places category (some es) f) :
    p.cuisine_type = "기타" ∧
      p.cuisine_type ∉ (["한식", "양식", "아시안", "카페", "일반/기타"] : List String) := by
  have h : (category == "restaurant") = false := by
    rcases hcat with h | h <;> subst h <;> decide
  have hv : (category == "restaurant" || category == "hotel"
      || category == "tourism") = true := by
    rcases hcat with hh | hh <;> subst hh <;> decide
  simp only [get_osm_places, hv, if_true, List.mem_filterMap] at hp
  obtain ⟨e, _, hpe⟩ := hp
  have hplace := processElement_placeholder category h f e p hpe
  rw [hplace]
  exact ⟨rfl, by decide⟩

/-- Witness for `nonrestaurant_no_cuisine_class` at a hotel element whose
cuisine tag even contains "korean". -/
theorem nonrestaurant_no_cuisine_class_witness :
    ("hotel" = "hotel" ∨ "hotel" = "tourism") ∧
      ({ name := "H", lat := 1, lng := 2, type := "hotel",
         cuisine_type := "기타", raw_cuisine := "korean" } : Place)
        ∈ get_osm_places "hotel" (some [⟨some ⟨some "H", some "korean"⟩, 1, 2⟩]) [] ∧
      ({ name := "H", lat := 1, lng := 2, type := "hotel",
         cuisine_type := "기타", raw_cuisine := "korean" } : Place).cuisine_type = "기타" ∧
      ({ name := "H", lat := 1, lng := 2, type := "hotel",
         cuisine_type := "기타", raw_cuisine := "korean" } : Place).cuisine_type
        ∉ (["한식", "양식", "아시안", "카페", "일반/기타"] : List String) :=
  ⟨Or.inl rfl, by decide,
   nonrestaurant_no_cuisine_class "hotel" (Or.inl rfl)
     [⟨some ⟨some "H", some "korean"⟩, 1, 2⟩] [] _ (by decide)⟩

/-- C10: for any category other than the three known ones, the fetch
returns `[]` before any request is issued: the result is empty and does not
depend on the response at all. -/
theorem unknown_category_empty (category : String)
    (h1 : category ≠ "restaurant") (h2 : category ≠ "hotel")
    (h3 : category ≠ "tourism")
    (resp : Option (List OsmElement)) (f : List String) :
    get_osm_places category resp f = [] ∧
      get_osm_places category resp f = get_osm_places category none f := by
  have hc : ¬((category == "restaurant" || category == "hotel"
      || category == "tourism") = true) := by
    simp [h1, h2, h3]
  constructor <;> simp [get_osm_places, hc]

/-- Witness for `unknown_category_empty` at category "bar" with a nonempty
response. -/
theorem unknown_category_empty_witness :
    ("bar" : String) ≠ "restaurant" ∧ ("bar" : String) ≠ "hotel" ∧
      ("bar" : String) ≠ "tourism" ∧
      get_osm_places "bar" (some [⟨some ⟨some "B", some "korean"⟩, 1, 2⟩]) ["한식"] = [] :=
  ⟨by decide, by decide, by decide,
   (unknown_category_empty "bar" (by decide) (by decide) (by decide)
     (some [⟨some ⟨some "B", some "korean"⟩, 1, 2⟩]) ["한식"]).1⟩

/-- Header normalization of the loader (`streamlit_app.py` line 122):
remove line breaks, then strip surrounding whitespace. -/
def normalizeHeader (h : String) : String := strTrim (stripNewlines h)

/-- A parsed CSV table: the raw header strings and rows of cells aligned
with the headers (`none` = missing value / NaN; the region-code column is
read with dtype `str`, so its cells stay strings). -/
structure CsvTable where
  headers : List String
  rows : List (List (Option String))
deriving DecidableEq

/-- One output row of the loader after the renames of lines 138-141: the
`District` name and the `Total_Crime` cell. -/
structure DistrictStat where
  district : Option String
  total : Option String
deriving DecidableEq

/-- The header test of line 125: a normalized header containing both the
fragment "Straftaten" and the fragment "insgesamt". -/
def isTotalHeader (c : String) : Bool :=
  hasSubstr c "Straftaten" && hasSubstr c "insgesamt"

/-- Index of the first header satisfying `p` (the `[0]` of line 129 /
pandas column lookup). -/
def findHeaderIdx (p : String → Bool) : List String → Option Nat
  | [] => none
  | h :: t => if p h then some 0 else (findHeaderIdx p t).map (· + 1)

/-- The row filter of line 135: the region-code cell is present and ends in
the literal "0000" (`na=False`: a missing code excludes the row). -/
def isDistrictRow (lorIdx : Nat) (r : List (Option String)) : Bool :=
  match r.getD lorIdx none with
  | some s => strEndsWith s "0000"
  | none => false

/-- The projection of lines 138-148: the stripped district name and the
total-offenses cell, in the order `['District', 'Total_Crime']`. -/
def projectRow (bezIdx totalIdx : Nat) (r : List (Option String)) : DistrictStat :=
  { district := (r.getD bezIdx none).map strTrim, total := r.getD totalIdx none }

/-- `load_and_process_crime_data` (`streamlit_app.py` lines 106-152).
`src = none` models a missing or unparsable CSV (the `except` path); a
missing total-offenses header takes the explicit early return of line 128;
a missing region-code or district-name column raises a `KeyError` inside
the `try` and is likewise caught, so those paths also yield the empty
table. -/
def load_and_process_crime_data (src : Option CsvTable) : List DistrictStat :=
  match src with
  | none => []
  | some t =>
    match findHeaderIdx isTotalHeader (t.headers.map normalizeHeader) with
    | none => []
    | some totalIdx =>
      match findHeaderIdx (fun c => c == "LOR-Schlüssel (Bezirksregion)")
          (t.headers.map normalizeHeader) with
      | none => []
      | some lorIdx =>
        match findHeaderIdx (fun c => c == "Bezeichnung (Bezirksregion)")
            (t.headers.map normalizeHeader) with
        | none => []
        | some bezIdx =>
          (t.rows.filter (isDistrictRow lorIdx)).map (projectRow bezIdx totalIdx)

/-- A two-row crime source: a district aggregate row (code "010000") and a
sub-district detail row (code "011001"); the total header carries an
embedded line break as in the real dataset. -/
def crimeExample : CsvTable :=
  { headers := ["LOR-Schlüssel (Bezirksregion)", "Bezeichnung (Bezirksregion)",
                "Straftaten \n-insgesamt-"],
    rows := [[some "010000", some "Mitte", some "120"],
             [some "011001", some "Tiergarten", some "40"]] }

/-- `findHeaderIdx` finds nothing when no element satisfies the test. -/
theorem findHeaderIdx_eq_none (p : String → Bool) (l : List String)
    (h : ∀ a ∈ l, p a = false) : findHeaderIdx p l = none := by
  induction l with
  | nil => rfl
  | cons a t ih =>
    have ha := h a (List.mem_cons_self a t)
    simp [findHeaderIdx, ha, ih (fun b hb => h b (List.mem_cons_of_mem a hb))]

/-- C3: once the three columns are located, the loader keeps exactly the
rows whose region code ends in "0000" and drops every other row; on the
concrete two-row source the "010000" row survives and the "011001" row is
gone. -/
theorem crime_rows_district_only (t : CsvTable) (ti li bi : Nat)
    (h1 : findHeaderIdx isTotalHeader (t.headers.map normalizeHeader) = some ti)
    (h2 : findHeaderIdx (fun c => c == "LOR-Schlüssel (Bezirksregion)")
        (t.headers.map normalizeHeader) = some li)
    (h3 : findHeaderIdx (fun c => c == "Bezeichnung (Bezirksregion)")
        (t.headers.map normalizeHeader) = some bi) :
    load_and_process_crime_data (some t)
        = (t.rows.filter (isDistrictRow li)).map (projectRow bi ti) ∧
      load_and_process_crime_data (some crimeExample)
        = [{ district := some "Mitte", total := some "120" }] := by
  constructor
  · simp only [load_and_process_crime_data, h1, h2, h3]
  · decide

/-- Witness for `crime_rows_district_only` at the two-row source. -/
theorem crime_rows_district_only_witness :
    (findHeaderIdx isTotalHeader (crimeExample.headers.map normalizeHeader)
        = some 2) ∧
      (findHeaderIdx (fun c => c == "LOR-Schlüssel (Bezirksregion)")
        (crimeExample.headers.map normalizeHeader) = some 0) ∧
      (findHeaderIdx (fun c => c == "Bezeichnung (Bezirksregion)")
        (crimeExample.headers.map normalizeHeader) = some 1) ∧
      load_and_process_crime_data (some crimeExample)
        = (crimeExample.rows.filter (isDistrictRow 0)).map (projectRow 1 2) :=
  ⟨by decide, by decide, by decide,
   (crime_rows_district_only crimeExample 2 0 1 (by decide) (by decide)
     (by decide)).1⟩

/-- C4: the loader fails soft: a missing or unparsable source yields the
empty table, and so does any table none of whose normalized headers
contains both required fragments; being a total function it never raises. -/
theorem crime_loader_fail_soft :
    load_and_process_crime_data none = [] ∧
      ∀ t : CsvTable,
        (∀ h ∈ t.headers, isTotalHeader (normalizeHeader h) = false) →
          load_and_process_crime_data (some t) = [] := by
  refine ⟨rfl, ?_⟩
  intro t ht
  have hnone : findHeaderIdx isTotalHeader (t.headers.map normalizeHeader)
      = none := by
    refine findHeaderIdx_eq_none _ _ ?_
    intro a ha
    obtain ⟨b, hb, rfl⟩ := List.mem_map.mp ha
    exact ht b hb
  simp only [load_and_process_crime_data, hnone]

/-- Witness for `crime_loader_fail_soft` at a table whose headers carry only
one of the two required fragments. -/
theorem crime_loader_fail_soft_witness :
    (∀ h ∈ (["LOR-Schlüssel (Bezirksregion)", "Bezeichnung (Bezirksregion)",
        "Raubdelikte insgesamt"] : List String),
        isTotalHeader (normalizeHeader h) = false) ∧
      load_and_process_crime_data
        (some { headers := ["LOR-Schlüssel (Bezirksregion)",
                            "Bezeichnung (Bezirksregion)",
                            "Raubdelikte insgesamt"],
                rows := [[some "010000", some "Mitte", some "120"]] }) = [] :=
  ⟨by decide,
   crime_loader_fail_soft.2
     { headers := ["LOR-Schlüssel (Bezirksregion)",
                   "Bezeichnung (Bezirksregion)", "Raubdelikte insgesamt"],
       rows := [[some "010000", some "Mitte", some "120"]] }
     (by decide)⟩

/-- A recommendation entry as stored by the recommend-form handler
(`streamlit_app.py` line 430). -/
structure Recommendation where
  place : String
  desc : String
deriving DecidableEq

/-- The recommend-form handler: Python's
`st.session_state.recommendations.insert(0, rec)`, prepending the new
entry. -/
def addRecommendation (recs : List Recommendation) (place desc : String) :
    List Recommendation :=
  { place := place, desc := desc } :: recs

/-- C7: `addRecommendation` puts the new entry at index 0 and shifts every
existing entry one position back; two consecutive calls leave the second
entry at index 0 and the first at index 1. -/
theorem addRecommendation_most_recent_first :
    (∀ recs place desc,
        (addRecommendation recs place desc).get? 0
            = some { place := place, desc := desc } ∧
          ∀ i, (addRecommendation recs place desc).get? (i + 1) = recs.get? i) ∧
      ∀ recs p1 d1 p2 d2,
        (addRecommendation (addRecommendation recs p1 d1) p2 d2).get? 0
            = some { place := p2, desc := d2 } ∧
          (addRecommendation (addRecommendation recs p1 d1) p2 d2).get? 1
            = some { place := p1, desc := d1 } :=
  ⟨fun _ _ _ => ⟨rfl, fun _ => rfl⟩, fun _ _ _ _ _ => ⟨rfl, rfl⟩⟩

/-- Python's `del lst[i]` on a non-negative index: deletes the entry in
range, raises `IndexError` out of range. -/
def pyDelAt {α : Type} (l : List α) (i : Nat) : Except String (List α) :=
  if i < l.length then Except.ok (l.eraseIdx i) else Except.error "IndexError"

/-- The review-delete handler (`streamlit_app.py` line 419):
`del st.session_state.reviews[place][i]` on the review mapping, modelled as
an association list.  A missing place key raises `KeyError`; the deletion
itself follows `pyDelAt`.  The handler wraps nothing in a `try`, so an
`Except.error` propagates to the framework. -/
def deleteReview (reviews : List (String × List String)) (place : String)
    (i : Nat) : Except String (List (String × List String)) :=
  match reviews.find? (fun pr => pr.fst == place) with
  | none => Except.error "KeyError"
  | some pr =>
    match pyDelAt pr.snd i with
    | Except.error e => Except.error e
    | Except.ok l =>
      Except.ok (reviews.map (fun q => if q.fst == place then (q.fst, l) else q))

/-- C8 counterexample: deleting index 1 from a one-review list raises
`IndexError` instead of silently leaving the state unchanged. -/
theorem deleteReview_oob_counterexample :
    deleteReview [("Mauerpark", ["good"])] "Mauerpark" 1
        = Except.error "IndexError" ∧
      deleteReview [("Mauerpark", ["good"])] "Mauerpark" 1
        ≠ Except.ok [("Mauerpark", ["good"])] :=
  ⟨rfl, fun h => nomatch h⟩

/-- C8 amended: an out-of-range index makes `deleteReview` raise an
`IndexError`, which nothing in the handler catches; the state is not
updated. -/
theorem deleteReview_oob_raises (reviews : List (String × List String))
    (place : String) (pr : String × List String) (i : Nat)
    (hfind : reviews.find? (fun q => q.fst == place) = some pr)
    (hi : pr.snd.length ≤ i) :
    deleteReview reviews place i = Except.error "IndexError" := by
  simp only [deleteReview, hfind, pyDelAt]
  rw [if_neg (by omega)]

/-- Witness for `deleteReview_oob_raises` at a one-review state and
index 3. -/
theorem deleteReview_oob_raises_witness :
    ([("A", ["x"])].find? (fun q => q.fst == "A") = some ("A", ["x"])) ∧
      ("A", (["x"] : List String)).snd.length ≤ 3 ∧
      deleteReview [("A", ["x"])] "A" 3 = Except.error "IndexError" :=
  ⟨by decide, by decide,
   deleteReview_oob_raises [("A", ["x"])] "A" ("A", ["x"]) 3 (by decide)
     (by decide)⟩

/-- C6: the classifier is a total pure function: every string, the empty
string included, is sent to exactly one of the five defined classes. -/
theorem classify_total_five (s : String) :
    classify s ∈ (["한식", "양식", "아시안", "카페", "일반/기타"] : List String) := by
  unfold classify
  repeat' split
  all_goals decide
